import Mathlib

/-!
Shallow embedding of the Ternoa session relay (src/socket.io/creation.ts)
and the user service pagination and balance paths (src/api/services/user.ts).

The relay groups socket connections into rooms keyed by an opaque session
string and relays application event frames between members of the same room.
JavaScript values relevant to the handlers (payloads, callbacks, the msg
objects) are modelled by `JsVal`; a room registry is an association list from
session key to member socket ids, mirroring the socket.io adapter's
rooms map.
-/

/-- Atomic JavaScript values usable as object field values. -/
inductive JsAtom where
  | abool (b : Bool)
  | anum (n : Int)
  | astr (s : String)
  deriving DecidableEq, Repr

/-- A JavaScript value as the relay handlers see one: the handshake data,
an event payload, or the optional acknowledgment callback (`func` stands for
a function value, identified by an opaque id). -/
inductive JsVal where
  | undef
  | bool (b : Bool)
  | num (n : Int)
  | str (s : String)
  | func (id : Nat)
  | obj (fields : List (String × JsAtom))
  deriving DecidableEq, Repr

/-- JavaScript truthiness of a `JsVal` (used by the source's
`callback && typeof callback === "function"` test). -/
def truthy : JsVal → Bool
  | .undef => false
  | .bool b => b
  | .num n => n != 0
  | .str s => s != ""
  | .func _ => true
  | .obj _ => true

/-- The source's `typeof callback === "function"` test. -/
def isFunction : JsVal → Bool
  | .func _ => true
  | _ => false

/-- One frame as delivered to one socket: the target socket id, the event
name, and the payload. -/
structure Frame where
  target : String
  name : String
  payload : JsVal
  deriving DecidableEq, Repr

/-- The room registry: session key to the list of member socket ids,
mirroring `io.adapter.rooms`. -/
abbrev Rooms := List (String × List String)

/-- Members of the room keyed by `session` (empty when no such room). -/
def roomMembers (rooms : Rooms) (session : String) : List String :=
  match rooms with
  | [] => []
  | (s, ms) :: rest => if s = session then ms else roomMembers rest session

/-- Number of members of the room keyed by `session`. -/
def roomSize (rooms : Rooms) (session : String) : Nat :=
  (roomMembers rooms session).length

/-- `socket.join(session)`: add the socket to the room keyed by `session`,
creating the room on first join; socket.io rooms are sets, so a member is
never duplicated. -/
def joinRoom (rooms : Rooms) (session socketId : String) : Rooms :=
  match rooms with
  | [] => [(session, [socketId])]
  | (s, ms) :: rest =>
    if s = session then
      (s, if socketId ∈ ms then ms else ms ++ [socketId]) :: rest
    else
      (s, ms) :: joinRoom rest session socketId

/-- Remove a socket from the room keyed by `session` (socket.io removes a
socket from its rooms when its transport ends). -/
def leaveRoom (rooms : Rooms) (session socketId : String) : Rooms :=
  match rooms with
  | [] => []
  | (s, ms) :: rest =>
    if s = session then
      (s, ms.filter (fun m => m != socketId)) :: rest
    else
      (s, ms) :: leaveRoom rest session socketId

/-- `socket.to(session).emit(tag, payload)`: one frame per member of the
room keyed by `session` other than the sender, each carrying the event name
and the payload unmodified. -/
def broadcastExcept (rooms : Rooms) (session sender tag : String)
    (payload : JsVal) : List Frame :=
  ((roomMembers rooms session).filter (fun m => m != sender)).map
    (fun m => { target := m, name := tag, payload := payload })

/-- An object payload of shape carrying a single `msg` string field. -/
def msgPayload (m : String) : JsVal :=
  .obj [("msg", .astr m)]

/-- The acknowledgment value the handlers pass to the callback
(`callback({ ok: true })` in the source). -/
def ackOk : JsVal :=
  .obj [("ok", .abool true)]

/-- What one run of an application-tag handler produced: the frames
delivered to room members, the values passed to the sender's acknowledgment
callback, and whether an exception escaped the handler (the handlers contain
no try/catch, so a throwing broadcast propagates out uncaught). -/
structure HandlerRun where
  delivered : List Frame
  acks : List JsVal
  uncaught : Bool
  deriving DecidableEq, Repr

/-- The parameterized application-tag handler body
(creation.ts lines 19-50; all six registered handlers share it textually):
broadcast the payload to the other room members, then invoke the callback
with the ok object when the callback is a truthy function value. `emitOk`
models whether the underlying adapter accepted the broadcast: when it
throws (`emitOk = false`), line order means nothing is delivered, the
callback line is never reached, and the exception escapes uncaught. -/
def runAppHandler (tag : String) (rooms : Rooms) (session sender : String)
    (d cb : JsVal) (emitOk : Bool) : HandlerRun :=
  match emitOk with
  | true =>
    let validCallback := truthy cb && isFunction cb
    { delivered := broadcastExcept rooms session sender tag d,
      acks := if validCallback then [ackOk] else [],
      uncaught := false }
  | false => { delivered := [], acks := [], uncaught := true }

/-- The `PGPS_READY` handler (creation.ts lines 19-23), successful-emit
path. -/
def onPGPS_READY (rooms : Rooms) (session sender : String)
    (d cb : JsVal) : HandlerRun :=
  let validCallback := truthy cb && isFunction cb
  { delivered := broadcastExcept rooms session sender "PGPS_READY" d,
    acks := if validCallback then [ackOk] else [],
    uncaught := false }

/-- The `PGPS_READY_RECEIVED` handler (creation.ts lines 24-28). -/
def onPGPS_READY_RECEIVED (rooms : Rooms) (session sender : String)
    (d cb : JsVal) : HandlerRun :=
  let validCallback := truthy cb && isFunction cb
  { delivered := broadcastExcept rooms session sender "PGPS_READY_RECEIVED" d,
    acks := if validCallback then [ackOk] else [],
    uncaught := false }

/-- The `RUN_NFT_MINT` handler (creation.ts lines 29-33). -/
def onRUN_NFT_MINT (rooms : Rooms) (session sender : String)
    (d cb : JsVal) : HandlerRun :=
  let validCallback := truthy cb && isFunction cb
  { delivered := broadcastExcept rooms session sender "RUN_NFT_MINT" d,
    acks := if validCallback then [ackOk] else [],
    uncaught := false }

/-- The `RUN_NFT_MINT_RECEIVED` handler (creation.ts lines 34-38). -/
def onRUN_NFT_MINT_RECEIVED (rooms : Rooms) (session sender : String)
    (d cb : JsVal) : HandlerRun :=
  let validCallback := truthy cb && isFunction cb
  { delivered := broadcastExcept rooms session sender "RUN_NFT_MINT_RECEIVED" d,
    acks := if validCallback then [ackOk] else [],
    uncaught := false }

/-- The `MINTING_NFT` handler (creation.ts lines 39-44). -/
def onMINTING_NFT (rooms : Rooms) (session sender : String)
    (d cb : JsVal) : HandlerRun :=
  let validCallback := truthy cb && isFunction cb
  { delivered := broadcastExcept rooms session sender "MINTING_NFT" d,
    acks := if validCallback then [ackOk] else [],
    uncaught := false }

/-- The `MINTING_NFT_RECEIVED` handler (creation.ts lines 45-50). -/
def onMINTING_NFT_RECEIVED (rooms : Rooms) (session sender : String)
    (d cb : JsVal) : HandlerRun :=
  let validCallback := truthy cb && isFunction cb
  { delivered := broadcastExcept rooms session sender "MINTING_NFT_RECEIVED" d,
    acks := if validCallback then [ackOk] else [],
    uncaught := false }

/-- The admission test of creation.ts line 11:
`!session || session === "undefined" || session === ""`. `none` models an
absent handshake parameter (falsy), and the empty string is falsy too, so
`!session` already covers the third disjunct. -/
def invalidSession : Option String → Bool
  | none => true
  | some s => s == "" || s == "undefined" || s == ""

/-- Reason string of the rejection frame (creation.ts line 13). -/
def connectionFailureMsg : String := "Missing session argument"

/-- Message of the success frame (creation.ts line 64). -/
def connectionSuccessMsg : String := "Connection successful"

/-- Outcome of one connection attempt: the frames emitted to the connecting
party, the room registry afterwards, whether the socket joined a room,
whether the server disconnected the transport, and the message string passed
to the logger (when any). -/
structure ConnectResult where
  frames : List Frame
  rooms : Rooms
  joined : Bool
  disconnected : Bool
  logged : Option String
  deriving DecidableEq, Repr

/-- The connection handler (creation.ts lines 7-66). On an invalid session
value: emit one `CONNECTION_FAILURE` frame to the connecting party, then
disconnect, no join. Otherwise: join the room keyed by the session value,
log, and emit one `CONNECTION_SUCCESS` frame to the connecting party.
Note on the `logged` field: line 18 reads
`L.info('socked ' + socket.id + ' joined to session ' + session) + ' room size='+io.adapter.rooms.get(session as string).size;`
so the only argument the logger receives is the quoted join sentence; the
`' room size='` concatenation applies to the return value of `L.info` and is
a discarded unused expression, never logged. -/
def handleConnection (rooms : Rooms) (socketId : String)
    (session : Option String) : ConnectResult :=
  if invalidSession session then
    { frames := [⟨socketId, "CONNECTION_FAILURE", msgPayload connectionFailureMsg⟩],
      rooms := rooms,
      joined := false,
      disconnected := true,
      logged := none }
  else
    let s := session.getD ""
    { frames := [⟨socketId, "CONNECTION_SUCCESS", msgPayload connectionSuccessMsg⟩],
      rooms := joinRoom rooms s socketId,
      joined := true,
      disconnected := false,
      logged := some ("socked " ++ socketId ++ " joined to session " ++ s) }

/-- Liveness of a connection with respect to its room: once its transport
ends it is removed. -/
inductive Liveness where
  | active
  | removed
  deriving DecidableEq, Repr

/-- The three teardown triggers of creation.ts lines 51-62. -/
inductive TeardownKind where
  | disconnect
  | timeout
  | close
  deriving DecidableEq, Repr

/-- The lifecycle event name each teardown handler emits
(creation.ts lines 53, 57, 61). -/
def lifecycleTag : TeardownKind → String
  | .disconnect => "USER_DISCONNECT"
  | .timeout => "USER_TIMEOUT"
  | .close => "USER_CLOSE"

/-- Outcome of one teardown signal: the lifecycle frames delivered to the
remaining room members, the acknowledgment values solicited (the teardown
handlers take no callback, so none are), the connection's liveness
afterwards, and the room registry afterwards. -/
structure TeardownResult where
  frames : List Frame
  acks : List JsVal
  live : Liveness
  rooms : Rooms
  deriving DecidableEq, Repr

/-- One teardown signal for a connection. Modelled from the spec: the
transport layer (socket.io, not under src/) fires each of
disconnect/timeout/close at most once and only for a live socket, and it
removes the socket from its rooms; a teardown signal for an already-removed
connection is a no-op. The live branch is the registered handlers of
creation.ts lines 51-62: broadcast the lifecycle frame, sentinel payload 1,
to the other members of the session's room, with no acknowledgment. -/
def teardownStep (rooms : Rooms) (session sender : String)
    (live : Liveness) (k : TeardownKind) : TeardownResult :=
  match live with
  | .removed => { frames := [], acks := [], live := .removed, rooms := rooms }
  | .active =>
    { frames := broadcastExcept rooms session sender (lifecycleTag k) (.num 1),
      acks := [],
      live := .removed,
      rooms := leaveRoom rooms session sender }

/-- The paginate result the user model returns
(src/api/services/user.ts line 35, `PaginateResult<IUser>`). -/
structure PaginateResult (α : Type) where
  totalDocs : Nat
  docs : List α
  hasNextPage : Bool
  hasPreviousPage : Bool

/-- The response shape `CustomResponse<IUser>` built by the user service. -/
structure CustomResponse (α : Type) where
  totalCount : Nat
  data : List α
  hasNextPage : Bool
  hasPreviousPage : Bool

/-- `UserService.getAllUsers` (user.ts lines 30-46), with the paginate
call's result passed explicitly: builds the response record, copying
`res.hasNextPage` into both page flags (line 40 reads
`hasPreviousPage: res.hasNextPage`). -/
def getAllUsers {α : Type} (page limit : Nat) (res : PaginateResult α) :
    CustomResponse α :=
  { totalCount := res.totalDocs,
    data := res.docs,
    hasNextPage := res.hasNextPage,
    hasPreviousPage := res.hasNextPage }

/-- An indexer account node (capsAmount/tiimeAmount strings). -/
structure Account where
  capsAmount : String
  tiimeAmount : String
  deriving DecidableEq, Repr

/-- The `accountEntities` field of an indexer response; `none` for a missing
`nodes` list. -/
structure AccountEntities where
  nodes : Option (List Account)

/-- An indexer response; `none` fields model missing (falsy) values in the
source's truthiness chain. -/
structure AccountResponse where
  accountEntities : Option AccountEntities

/-- The default account returned when the chain of checks fails
(user.ts line 145). -/
def defaultAccount : Account :=
  { capsAmount := "0", tiimeAmount := "0" }

/-- `UserService.getAccountBalance` (user.ts lines 138-150), with the
indexer's response passed explicitly: when
`result && result.accountEntities && result.accountEntities.nodes && result.accountEntities.nodes.length`
all hold (an empty list has length 0, falsy) return the first node,
otherwise the default account. -/
def getAccountBalance (result : Option AccountResponse) : Account :=
  match result with
  | none => defaultAccount
  | some r =>
    match r.accountEntities with
    | none => defaultAccount
    | some ae =>
      match ae.nodes with
      | none => defaultAccount
      | some [] => defaultAccount
      | some (n :: _) => n

/-- After a join, the joining socket is a member of the session's room. -/
theorem mem_roomMembers_joinRoom (rooms : Rooms) (s sid : String) :
    sid ∈ roomMembers (joinRoom rooms s sid) s := by
  induction rooms with
  | nil => simp [joinRoom, roomMembers]
  | cons p rest ih =>
    obtain ⟨a, ms⟩ := p
    by_cases h : a = s
    · subst h
      by_cases hmem : sid ∈ ms <;> simp [joinRoom, roomMembers, hmem]
    · simpa [joinRoom, roomMembers, h] using ih

/-- Building a frame with a fixed name and payload is injective in the
target socket id. -/
theorem mkFrame_injective (tag : String) (p : JsVal) :
    Function.Injective (fun m => Frame.mk m tag p) := by
  intro a b h
  simpa using congrArg Frame.target h

/-- Claim C1: for every room registry, session and sender, each of the six
recognized application tags is handled by the one shared policy
(`runAppHandler` with the successful emit), and that policy forwards the
payload unmodified to exactly the other members of the session's room,
never back to the sender. -/
theorem relay_forwards_unmodified_no_self_delivery
    (rooms : Rooms) (session sender : String) (d cb : JsVal) :
    (onPGPS_READY rooms session sender d cb
        = runAppHandler "PGPS_READY" rooms session sender d cb true
      ∧ onPGPS_READY_RECEIVED rooms session sender d cb
        = runAppHandler "PGPS_READY_RECEIVED" rooms session sender d cb true
      ∧ onRUN_NFT_MINT rooms session sender d cb
        = runAppHandler "RUN_NFT_MINT" rooms session sender d cb true
      ∧ onRUN_NFT_MINT_RECEIVED rooms session sender d cb
        = runAppHandler "RUN_NFT_MINT_RECEIVED" rooms session sender d cb true
      ∧ onMINTING_NFT rooms session sender d cb
        = runAppHandler "MINTING_NFT" rooms session sender d cb true
      ∧ onMINTING_NFT_RECEIVED rooms session sender d cb
        = runAppHandler "MINTING_NFT_RECEIVED" rooms session sender d cb true)
    ∧ (∀ tag m : String,
        Frame.mk m tag d ∈ (runAppHandler tag rooms session sender d cb true).delivered
          ↔ m ∈ roomMembers rooms session ∧ m ≠ sender)
    ∧ (∀ tag : String, ∀ f : Frame,
        f ∈ (runAppHandler tag rooms session sender d cb true).delivered
          → f.payload = d ∧ f.target ≠ sender) := by
  refine ⟨⟨rfl, rfl, rfl, rfl, rfl, rfl⟩, ?_, ?_⟩
  · intro tag m
    simp [runAppHandler, broadcastExcept, List.mem_map, List.mem_filter,
      Frame.mk.injEq, and_comm]
  · intro tag f hf
    simp only [runAppHandler, broadcastExcept, List.mem_map, List.mem_filter] at hf
    obtain ⟨x, ⟨hx, hxs⟩, rfl⟩ := hf
    exact ⟨rfl, by simpa using hxs⟩

/-- Claim C2: a connection attempt whose session value is absent, empty, or
the placeholder string gets exactly one `CONNECTION_FAILURE` frame carrying
the non-empty reason message, the transport is disconnected, and no room
join occurs (the registry is unchanged). -/
theorem invalid_session_rejected (rooms : Rooms) (socketId : String)
    (session : Option String) (h : invalidSession session = true) :
    handleConnection rooms socketId session
      = { frames := [⟨socketId, "CONNECTION_FAILURE", msgPayload connectionFailureMsg⟩],
          rooms := rooms,
          joined := false,
          disconnected := true,
          logged := none }
    ∧ connectionFailureMsg ≠ "" := by
  constructor
  · simp [handleConnection, h]
  · decide

/-- Witness for claim C2 at the empty-string session value. -/
theorem invalid_session_rejected_witness :
    handleConnection [] "Z" (some "")
      = { frames := [⟨"Z", "CONNECTION_FAILURE", msgPayload connectionFailureMsg⟩],
          rooms := [],
          joined := false,
          disconnected := true,
          logged := none }
    ∧ connectionFailureMsg ≠ "" :=
  invalid_session_rejected [] "Z" (some "") (by decide)

/-- Claim C3: for every application tag and every received frame, the
sender's acknowledgment callback is invoked, with the ok object, exactly
when the supplied callback is a function value; with no callback or a
non-function value nothing is invoked and no exception escapes the
handler. -/
theorem ack_iff_function_callback (tag : String) (rooms : Rooms)
    (session sender : String) (d cb : JsVal) :
    ((runAppHandler tag rooms session sender d cb true).acks
        = if isFunction cb then [ackOk] else [])
    ∧ (runAppHandler tag rooms session sender d cb true).uncaught = false := by
  cases cb <;> simp [runAppHandler, truthy, isFunction]

/-- Claim C4: teardown signals are honored at most once per connection: the
first signal (of any kind) broadcasts that kind's lifecycle frame, removes
the connection, and any subsequent teardown signal (of any kind) for the
already-removed connection delivers no frame and leaves the registry
unchanged. -/
theorem teardown_first_signal_only (rooms : Rooms) (session sender : String)
    (k k2 : TeardownKind) :
    ((teardownStep rooms session sender Liveness.active k).frames
        = broadcastExcept rooms session sender (lifecycleTag k) (JsVal.num 1))
    ∧ (teardownStep rooms session sender Liveness.active k).live = Liveness.removed
    ∧ (teardownStep (teardownStep rooms session sender Liveness.active k).rooms
        session sender (teardownStep rooms session sender Liveness.active k).live
        k2).frames = []
    ∧ (teardownStep (teardownStep rooms session sender Liveness.active k).rooms
        session sender (teardownStep rooms session sender Liveness.active k).live
        k2).rooms = (teardownStep rooms session sender Liveness.active k).rooms :=
  ⟨rfl, rfl, rfl, rfl⟩

/-- Claim C5: when a joined connection's transport ends, each remaining
member of its room (any other member of the session's room) receives exactly
one lifecycle frame whose name corresponds to the trigger
(`USER_DISCONNECT`, `USER_TIMEOUT`, `USER_CLOSE`) and whose payload is the
sentinel 1, and no acknowledgment is solicited. -/
theorem lifecycle_frame_exactly_once (rooms : Rooms)
    (session sender m : String) (k : TeardownKind)
    (hnd : (roomMembers rooms session).Nodup)
    (hm : m ∈ roomMembers rooms session) (hms : m ≠ sender) :
    ((teardownStep rooms session sender Liveness.active k).frames.count
        (Frame.mk m (lifecycleTag k) (JsVal.num 1)) = 1)
    ∧ (teardownStep rooms session sender Liveness.active k).acks = []
    ∧ lifecycleTag TeardownKind.disconnect = "USER_DISCONNECT"
    ∧ lifecycleTag TeardownKind.timeout = "USER_TIMEOUT"
    ∧ lifecycleTag TeardownKind.close = "USER_CLOSE" := by
  refine ⟨?_, rfl, rfl, rfl, rfl⟩
  show ((((roomMembers rooms session).filter (fun x => x != sender)).map
      (fun x => Frame.mk x (lifecycleTag k) (JsVal.num 1))).count
      (Frame.mk m (lifecycleTag k) (JsVal.num 1)) = 1)
  rw [List.count_map_of_injective _ _ (mkFrame_injective (lifecycleTag k) (JsVal.num 1)) m]
  exact List.count_eq_one_of_mem (hnd.filter _)
    (List.mem_filter.mpr ⟨hm, by simpa using hms⟩)

/-- Witness for claim C5: X and Y joined to session abc123, X times out,
Y receives exactly one `USER_TIMEOUT` frame with sentinel payload 1. -/
theorem lifecycle_frame_exactly_once_witness :
    ((teardownStep [("abc123", ["X", "Y"])] "abc123" "X" Liveness.active
        TeardownKind.timeout).frames.count
        (Frame.mk "Y" (lifecycleTag TeardownKind.timeout) (JsVal.num 1)) = 1)
    ∧ (teardownStep [("abc123", ["X", "Y"])] "abc123" "X" Liveness.active
        TeardownKind.timeout).acks = []
    ∧ lifecycleTag TeardownKind.disconnect = "USER_DISCONNECT"
    ∧ lifecycleTag TeardownKind.timeout = "USER_TIMEOUT"
    ∧ lifecycleTag TeardownKind.close = "USER_CLOSE" :=
  lifecycle_frame_exactly_once [("abc123", ["X", "Y"])] "abc123" "X" "Y"
    TeardownKind.timeout (by decide) (by decide) (by decide)

/-- Claim C6: a connection attempt with a valid session value joins the room
keyed by that session (the socket is a member afterwards) and gets exactly
one `CONNECTION_SUCCESS` frame carrying a msg string. -/
theorem valid_session_joins_and_success (rooms : Rooms) (socketId s : String)
    (h : invalidSession (some s) = false) :
    (handleConnection rooms socketId (some s)).frames
      = [⟨socketId, "CONNECTION_SUCCESS", msgPayload connectionSuccessMsg⟩]
    ∧ (handleConnection rooms socketId (some s)).joined = true
    ∧ (handleConnection rooms socketId (some s)).disconnected = false
    ∧ (handleConnection rooms socketId (some s)).rooms = joinRoom rooms s socketId
    ∧ socketId ∈ roomMembers (handleConnection rooms socketId (some s)).rooms s := by
  refine ⟨?_, ?_, ?_, ?_, ?_⟩ <;> simp [handleConnection, h]
  exact mem_roomMembers_joinRoom rooms s socketId

/-- Witness for claim C6 at session abc123. -/
theorem valid_session_joins_and_success_witness :
    "X" ∈ roomMembers (handleConnection [] "X" (some "abc123")).rooms "abc123" :=
  (valid_session_joins_and_success [] "X" "abc123" (by decide)).2.2.2.2

/-- Claim C7 (the code at creation.ts line 18): the string the logger
receives on a successful join is the same whatever the resulting room size
is - the `room size=` concatenation is applied to the logger call's return
value and discarded - so the membership size is not logged. Here the same
socket joining the same session in an empty registry (size 1 afterwards)
and in a registry already holding three members (size 4 afterwards)
produces the identical log message, which spells out only the socket id and
session. -/
theorem join_log_omits_room_size :
    (handleConnection [] "X" (some "abc123")).logged
      = (handleConnection [("abc123", ["A", "B", "C"])] "X" (some "abc123")).logged
    ∧ (handleConnection [] "X" (some "abc123")).logged
      = some "socked X joined to session abc123"
    ∧ roomSize (handleConnection [] "X" (some "abc123")).rooms "abc123" = 1
    ∧ roomSize (handleConnection [("abc123", ["A", "B", "C"])] "X"
        (some "abc123")).rooms "abc123" = 4 := by
  refine ⟨?_, ?_, ?_, ?_⟩ <;> decide

/-- Counterexample to claim C8 as stated: a failing broadcast escapes the
handler uncaught - the handler body (creation.ts lines 29-33) contains no
error handling, so nothing in the relay code contains the failure or
prevents a process crash. Concrete input: room s with members A and B,
sender A, a string payload, a function callback, failing emit. -/
theorem relay_error_escapes_uncaught :
    (runAppHandler "RUN_NFT_MINT" [("s", ["A", "B"])] "s" "A"
      (JsVal.str "payload") (JsVal.func 0) false).uncaught = true := by
  decide

/-- Claim C8 as amended: when the broadcast of an application frame fails,
nothing is delivered for that attempt and the sender's acknowledgment
callback is not invoked at all - in particular never with the ok object -
but the failure escapes the handler uncaught rather than being contained. -/
theorem relay_error_drops_broadcast_and_ack (tag : String) (rooms : Rooms)
    (session sender : String) (d cb : JsVal) :
    (runAppHandler tag rooms session sender d cb false).delivered = []
    ∧ (runAppHandler tag rooms session sender d cb false).acks = []
    ∧ (runAppHandler tag rooms session sender d cb false).uncaught = true :=
  ⟨rfl, rfl, rfl⟩

/-- Claim C9: in the user-service pagination path, the response built by
`getAllUsers` always carries equal `hasPreviousPage` and `hasNextPage`
flags - both copied from the paginate result's `hasNextPage` - for every
page and limit argument and every paginate result, even one whose own
`hasPreviousPage` differs. -/
theorem getAllUsers_hasPreviousPage_eq_hasNextPage {α : Type}
    (page limit : Nat) (res : PaginateResult α) :
    (getAllUsers page limit res).hasPreviousPage
      = (getAllUsers page limit res).hasNextPage
    ∧ (getAllUsers page limit res).hasPreviousPage = res.hasNextPage :=
  ⟨rfl, rfl⟩

/-- Claim C10: `getAccountBalance` returns the default zero-balance account
when the response, its accountEntities, or its nodes list is missing, or
the nodes list is empty, and returns exactly the first node when the list
is non-empty. -/
theorem getAccountBalance_default_or_first :
    getAccountBalance none = defaultAccount
    ∧ getAccountBalance (some ⟨none⟩) = defaultAccount
    ∧ getAccountBalance (some ⟨some ⟨none⟩⟩) = defaultAccount
    ∧ getAccountBalance (some ⟨some ⟨some []⟩⟩) = defaultAccount
    ∧ (∀ (n : Account) (t : List Account),
        getAccountBalance (some ⟨some ⟨some (n :: t)⟩⟩) = n) :=
  ⟨rfl, rfl, rfl, rfl, fun _ _ => rfl⟩
